import Mathlib

/-!
Verification development for the tether-name MCP server
(`src/index.ts`).  The server exposes five tools over MCP:
`verify_identity`, `request_challenge`, `sign_challenge`,
`submit_proof`, `get_credential_info`.  Four of them delegate to the
external `tether-name` SDK (`TetherClient`); configuration is read from
the process environment (`TETHER_CREDENTIAL_ID`,
`TETHER_PRIVATE_KEY_PATH`).

The shallow embedding below models:
  - the environment as three optional string variables;
  - JavaScript truthiness of an environment value (unset and the empty
    string are both falsy);
  - `getClient` from `src/index.ts` lines 12-31;
  - the five registered tool handlers (lines 33-177), with the external
    SDK behaviour (`TetherClient.verify` / `requestChallenge` / `sign` /
    `submitProof`) as an explicit parameter, since that code lives in
    the `tether-name` npm package, not in this repository;
  - `JSON.stringify(_, null, 2)` on the flat objects the handlers build;
  - the tool registry (names, descriptions, required input fields).
-/

namespace TetherMcp

/-- Substring test helper: does the character list `s` start with `p`? -/
def strStarts : List Char → List Char → Bool
  | _, [] => true
  | [], _ :: _ => false
  | c :: cs, d :: ds => c == d && strStarts cs ds

/-- Substring test helper: does `p` occur contiguously inside `s`? -/
def hasSubstr : List Char → List Char → Bool
  | [], p => strStarts [] p
  | c :: t, p => strStarts (c :: t) p || hasSubstr t p

/-- String-level substring containment, mirroring JavaScript
`text.includes(sub)`. -/
def strContainsStr (s sub : String) : Bool :=
  hasSubstr s.toList sub.toList

/-- The process environment as seen by the server: the three
`TETHER_*` variables, each possibly unset. -/
structure Env where
  tetherCredentialId : Option String
  tetherPrivateKeyPath : Option String
  tetherBaseUrl : Option String
  deriving Repr, DecidableEq

/-- JavaScript truthiness of an environment variable value: `undefined`
(unset) and the empty string are falsy, every other string is truthy.
This models the `!credentialId` tests in `getClient`. -/
def envTruthy : Option String → Bool
  | none => false
  | some s => !(s == "")

/-- The constructor argument of `new TetherClient({credentialId,
privateKeyPath})` (`src/index.ts` lines 27-30). -/
structure TetherClientCfg where
  credentialId : String
  privateKeyPath : String
  deriving Repr, DecidableEq

/-- `getClient` from `src/index.ts` lines 12-31: reads the two required
environment variables, throws (modelled as `Except.error`) naming the
first missing one, else constructs the client configuration. -/
def getClient (env : Env) : Except String TetherClientCfg :=
  let credentialId := env.tetherCredentialId
  let privateKeyPath := env.tetherPrivateKeyPath
  if !envTruthy credentialId then
    .error "TETHER_CREDENTIAL_ID environment variable is required"
  else if !envTruthy privateKeyPath then
    .error "TETHER_PRIVATE_KEY_PATH environment variable is required"
  else
    .ok { credentialId := credentialId.getD "",
          privateKeyPath := privateKeyPath.getD "" }

/-- Behaviour of the external `tether-name` SDK client.  The SDK is not
part of this repository; each method either succeeds (for `verify` and
`submitProof` the success value is the JSON-serialized result text the
handler embeds verbatim) or throws with an error message. -/
structure SdkBehavior where
  verify : TetherClientCfg → Except String String
  requestChallenge : TetherClientCfg → Except String String
  sign : TetherClientCfg → String → Except String String
  submitProof : TetherClientCfg → String → String → Except String String

/-- The MCP tool response envelope: a list of text content items plus
the `isError` flag (absent in the source on success, modelled as
`false`). -/
structure ToolResponse where
  content : List String
  isError : Bool
  deriving Repr, DecidableEq

/-- A JSON value as built by the handlers (only strings and booleans
occur). -/
inductive JVal
  | jstr (s : String)
  | jbool (b : Bool)
  deriving Repr, DecidableEq

/-- Hex digit for JSON control-character escapes. -/
def hexDigit (n : Nat) : Char :=
  "0123456789abcdef".toList.getD n '0'

/-- Escaping of a single character as performed by `JSON.stringify` on
string values. -/
def jsonEscapeChar (c : Char) : String :=
  if c == '"' then "\\\""
  else if c == '\\' then "\\\\"
  else if c == '\n' then "\\n"
  else if c == '\r' then "\\r"
  else if c == '\t' then "\\t"
  else if c == '\x08' then "\\b"
  else if c == '\x0c' then "\\f"
  else if c.toNat < 32 then
    "\\u00" ++ String.mk [hexDigit (c.toNat / 16), hexDigit (c.toNat % 16)]
  else String.mk [c]

/-- `JSON.stringify` escaping of a whole string (without the outer
quotes). -/
def jsonEscape (s : String) : String :=
  String.join (s.toList.map jsonEscapeChar)

/-- One `"key": value` line of `JSON.stringify(obj, null, 2)` at the
top indentation level. -/
def jfieldStr : String × JVal → String
  | (k, JVal.jstr s) => "  \"" ++ jsonEscape k ++ "\": \"" ++ jsonEscape s ++ "\""
  | (k, JVal.jbool b) =>
      "  \"" ++ jsonEscape k ++ "\": " ++ (if b then "true" else "false")

/-- `JSON.stringify(obj, null, 2)` for a flat object with the given
fields in insertion order (all objects the handlers serialize
themselves are flat and non-empty). -/
def jsonStringify2 (fields : List (String × JVal)) : String :=
  "\x7b\n" ++ String.intercalate ",\n" (fields.map jfieldStr) ++ "\n\x7d"

/-- Handler of the `verify_identity` tool (`src/index.ts` lines 33-55):
build the client, call `client.verify()`, serialize the result; any
error thrown by either step is caught by the single `catch` and becomes
an error envelope with the `Verification failed: ` text. -/
def verify_identity (env : Env) (sdk : SdkBehavior) : ToolResponse :=
  match getClient env with
  | .error message =>
      { content := ["Verification failed: " ++ message], isError := true }
  | .ok client =>
      match sdk.verify client with
      | .ok text => { content := [text], isError := false }
      | .error message =>
          { content := ["Verification failed: " ++ message], isError := true }

/-- Handler of the `request_challenge` tool (`src/index.ts` lines
57-83). -/
def request_challenge (env : Env) (sdk : SdkBehavior) : ToolResponse :=
  match getClient env with
  | .error message =>
      { content := ["Failed to request challenge: " ++ message],
        isError := true }
  | .ok client =>
      match sdk.requestChallenge client with
      | .ok challenge =>
          { content := [jsonStringify2 [("challenge", JVal.jstr challenge)]],
            isError := false }
      | .error message =>
          { content := ["Failed to request challenge: " ++ message],
            isError := true }

/-- Handler of the `sign_challenge` tool (`src/index.ts` lines 85-114):
no validation of `challenge` is performed by the handler; the string is
passed to `client.sign` as-is. -/
def sign_challenge (env : Env) (sdk : SdkBehavior) (challenge : String) :
    ToolResponse :=
  match getClient env with
  | .error message =>
      { content := ["Failed to sign challenge: " ++ message],
        isError := true }
  | .ok client =>
      match sdk.sign client challenge with
      | .ok proof =>
          { content := [jsonStringify2 [("proof", JVal.jstr proof)]],
            isError := false }
      | .error message =>
          { content := ["Failed to sign challenge: " ++ message],
            isError := true }

/-- Handler of the `submit_proof` tool (`src/index.ts` lines 116-148). -/
def submit_proof (env : Env) (sdk : SdkBehavior)
    (challenge proof : String) : ToolResponse :=
  match getClient env with
  | .error message =>
      { content := ["Failed to submit proof: " ++ message], isError := true }
  | .ok client =>
      match sdk.submitProof client challenge proof with
      | .ok text => { content := [text], isError := false }
      | .error message =>
          { content := ["Failed to submit proof: " ++ message],
            isError := true }

/-- The `x || "(not set)"` defaulting used by the `get_credential_info`
handler (`src/index.ts` lines 166-167). -/
def jsOrNotSet (v : Option String) : String :=
  match v with
  | none => "(not set)"
  | some s => if s == "" then "(not set)" else s

/-- Handler of the `get_credential_info` tool (`src/index.ts` lines
150-177): reads the two credential variables, substitutes `"(not set)"`
for falsy values, reports `configured` as the conjunction of their
truthiness.  Note: the object it serializes has exactly the three
fields `credentialId`, `privateKeyPath`, `configured` - no `baseUrl`
field - and `TETHER_BASE_URL` is read nowhere in `src/index.ts`. -/
def get_credential_info (env : Env) : ToolResponse :=
  let credentialId := env.tetherCredentialId
  let privateKeyPath := env.tetherPrivateKeyPath
  { content := [jsonStringify2
      [("credentialId", JVal.jstr (jsOrNotSet credentialId)),
       ("privateKeyPath", JVal.jstr (jsOrNotSet privateKeyPath)),
       ("configured",
        JVal.jbool (envTruthy credentialId && envTruthy privateKeyPath))]],
    isError := false }

/-- A registered tool: its name, description, and the list of required
input fields derived from its zod `inputSchema` (a plain `z.string()`
field is required; tools without an `inputSchema` take no input). -/
structure ToolDecl where
  name : String
  description : String
  requiredInputs : List String
  deriving Repr, DecidableEq

/-- The five tools registered by `createServer` (`src/index.ts` lines
33-177), in registration order, with their verbatim descriptions and
required input fields. -/
def registeredTools : List ToolDecl :=
  [{ name := "verify_identity",
     description := "Perform complete identity verification in one call. Requests a challenge, signs it with the configured private key, and submits the proof to tether.name for verification.",
     requiredInputs := [] },
   { name := "request_challenge",
     description := "Request a new challenge string from the tether.name API. This challenge must be signed and submitted back for verification.",
     requiredInputs := [] },
   { name := "sign_challenge",
     description := "Sign a challenge string using the configured RSA private key. Returns a URL-safe base64 encoded signature.",
     requiredInputs := ["challenge"] },
   { name := "submit_proof",
     description := "Submit a signed proof for a challenge to the tether.name API for verification.",
     requiredInputs := ["challenge", "proof"] },
   { name := "get_credential_info",
     description := "Get information about the currently configured tether.name credential. Returns the credential ID and key path.",
     requiredInputs := [] }]

/-- A concrete SDK behaviour in which every method fails with a fixed
message; used to instantiate theorems whose conclusion does not depend
on the SDK. -/
def dummySdk : SdkBehavior :=
  { verify := fun _ => .error "network",
    requestChallenge := fun _ => .error "network",
    sign := fun _ _ => .error "signing",
    submitProof := fun _ _ _ => .error "network" }

/-- The first (or only) text content item of a response. -/
def respText (r : ToolResponse) : String :=
  r.content.getD 0 ""

/-- Modelled from the spec: the `TetherClient.verify` orchestration is
implemented in the external `tether-name` SDK, not in this repository;
spec section 4.4 defines it as the sequence
`challenge = requestChallenge(config)`, `proof = sign(key, challenge)`,
`return submitProof(config, challenge, proof)`, each step short-circuiting
on failure.  The three steps are passed in as explicit functions. -/
def verifyOrchestrated (reqStep : Except String String)
    (signStep : String → Except String String)
    (submitStep : String → String → Except String String) :
    Except String String :=
  match reqStep with
  | .error e => .error e
  | .ok challenge =>
      match signStep challenge with
      | .error e => .error e
      | .ok proof => submitStep challenge proof

/-- An SDK whose `verify` method is the spec-modelled orchestration of
the three given per-config step functions. -/
def sdkOrch (req : TetherClientCfg → Except String String)
    (sgn : TetherClientCfg → String → Except String String)
    (sub : TetherClientCfg → String → String → Except String String) :
    SdkBehavior :=
  { verify := fun cfg => verifyOrchestrated (req cfg) (sgn cfg) (sub cfg),
    requestChallenge := req,
    sign := sgn,
    submitProof := sub }

/-- Modelled from the spec: the RSA signature scheme choice of the
Signer (spec section 4.2 and section 8: PKCS#1 v1.5 is deterministic,
PSS is salted and would vary between invocations). -/
inductive RsaScheme
  | pkcs1v15
  | pss
  deriving Repr, DecidableEq

/-- Modelled from the spec: an RSA private key as modulus and private
exponent (the SDK loads it from `privateKeyPath`; key loading is not in
this repository). -/
structure RsaPrivateKey where
  n : Nat
  d : Nat
  deriving Repr, DecidableEq

/-- Modelled from the spec: the UTF-8 bytes of a challenge string
(restricted to the code-point value of each character, which agrees
with UTF-8 on ASCII challenges). -/
def utf8Bytes (s : String) : List Nat :=
  s.toList.map Char.toNat

/-- Big-endian octet-string-to-integer conversion (RFC 8017 OS2IP). -/
def os2ip (bytes : List Nat) : Nat :=
  bytes.foldl (fun acc b => acc * 256 + b) 0

/-- Big-endian integer-to-octet-string conversion of fixed length
(RFC 8017 I2OSP). -/
def i2osp : Nat → Nat → List Nat
  | 0, _ => []
  | k + 1, x => i2osp k (x / 256) ++ [x % 256]

/-- The RSA signature primitive: modular exponentiation with the
private exponent (RFC 8017 RSASP1). -/
def rsasp1 (key : RsaPrivateKey) (m : Nat) : Nat :=
  m ^ key.d % key.n

/-- Modelled from the spec: the deterministic EMSA-PKCS1-v1_5 encoding
of a message digest - fixed `00 01 FF .. FF 00` padding followed by the
digest; no randomness is consumed. -/
def emsaPkcs1v15 (digest : List Nat) (emLen : Nat) : List Nat :=
  [0, 1] ++ List.replicate (emLen - (digest.length + 3)) 255 ++ [0] ++ digest

/-- Modelled from the spec: a salted EMSA-PSS-style encoding - the salt
enters both the re-hashed block and the data block, so the encoding
varies with the salt. -/
def emsaPss (hash : List Nat → List Nat) (digest salt : List Nat)
    (emLen : Nat) : List Nat :=
  let hp := hash (List.replicate 8 0 ++ digest ++ salt)
  let db := List.replicate (emLen - (salt.length + hp.length + 2)) 0 ++
    [1] ++ salt
  db ++ hp ++ [188]

/-- The URL-safe base64 alphabet. -/
def b64urlChar (i : Nat) : Char :=
  "ABCDEFGHIJKLMNOPQRSTUVWXYZabcdefghijklmnopqrstuvwxyz0123456789-_".toList.getD i 'A'

/-- URL-safe base64 encoding of a byte list, without padding
(spec section 4.2: the proof is URL-safe base64 without padding). -/
def b64urlEncode : List Nat → List Char
  | [] => []
  | [a] => [b64urlChar (a / 4), b64urlChar (a % 4 * 16)]
  | [a, b] =>
      [b64urlChar (a / 4), b64urlChar (a % 4 * 16 + b / 16),
       b64urlChar (b % 16 * 4)]
  | a :: b :: c :: rest =>
      b64urlChar (a / 4) :: b64urlChar (a % 4 * 16 + b / 16) ::
        b64urlChar (b % 16 * 4 + c / 64) :: b64urlChar (c % 64) ::
        b64urlEncode rest

/-- Modelled from the spec: the Signer (spec section 4.2) - hash the
UTF-8 bytes of the challenge, apply the padding encoding of the chosen
scheme (PKCS#1 v1.5 ignores the ambient salt, PSS consumes it), apply
the RSA private-key primitive, and base64url-encode the result. -/
def rsaSign (scheme : RsaScheme) (hash : List Nat → List Nat)
    (key : RsaPrivateKey) (emLen : Nat) (challenge : String)
    (salt : List Nat) : String :=
  let digest := hash (utf8Bytes challenge)
  let em :=
    match scheme with
    | .pkcs1v15 => emsaPkcs1v15 digest emLen
    | .pss => emsaPss hash digest salt emLen
  String.mk (b64urlEncode (i2osp emLen (rsasp1 key (os2ip em))))

/-- Modelled from the spec: the scheme fixed by this core's chosen
configuration is PKCS#1 v1.5 with SHA-256 (spec sections 4.2 and 8). -/
def signerScheme : RsaScheme :=
  RsaScheme.pkcs1v15

/-- An SDK whose `sign` method is the spec-modelled Signer invoked with
the given ambient salt (the randomness the process would supply at that
invocation; PKCS#1 v1.5 does not consume it). -/
def sdkSigning (hash : List Nat → List Nat) (key : RsaPrivateKey)
    (emLen : Nat) (salt : List Nat) : SdkBehavior :=
  { dummySdk with
    sign := fun _ c => .ok (rsaSign signerScheme hash key emLen c salt) }

/-- An SDK whose `sign` always succeeds, echoing its input; used to
exhibit what `sign_challenge` does when the SDK accepts the empty
challenge. -/
def okSignSdk : SdkBehavior :=
  { dummySdk with sign := fun _ ch => .ok ("sig-of:" ++ ch) }

/- Helper lemmas shared by the claim theorems. -/

lemma getClient_cred_falsy (env : Env)
    (h : envTruthy env.tetherCredentialId = false) :
    getClient env =
      .error "TETHER_CREDENTIAL_ID environment variable is required" := by
  simp [getClient, h]

lemma getClient_key_falsy (env : Env)
    (hc : envTruthy env.tetherCredentialId = true)
    (hk : envTruthy env.tetherPrivateKeyPath = false) :
    getClient env =
      .error "TETHER_PRIVATE_KEY_PATH environment variable is required" := by
  simp [getClient, hc, hk]

lemma verify_identity_of_error (env : Env) (sdk : SdkBehavior) (m : String)
    (h : getClient env = .error m) :
    verify_identity env sdk =
      { content := ["Verification failed: " ++ m], isError := true } := by
  simp [verify_identity, h]

lemma request_challenge_of_error (env : Env) (sdk : SdkBehavior) (m : String)
    (h : getClient env = .error m) :
    request_challenge env sdk =
      { content := ["Failed to request challenge: " ++ m],
        isError := true } := by
  simp [request_challenge, h]

lemma sign_challenge_of_error (env : Env) (sdk : SdkBehavior)
    (ch m : String) (h : getClient env = .error m) :
    sign_challenge env sdk ch =
      { content := ["Failed to sign challenge: " ++ m], isError := true } := by
  simp [sign_challenge, h]

lemma submit_proof_of_error (env : Env) (sdk : SdkBehavior)
    (ch pf m : String) (h : getClient env = .error m) :
    submit_proof env sdk ch pf =
      { content := ["Failed to submit proof: " ++ m], isError := true } := by
  simp [submit_proof, h]

lemma strStarts_self : ∀ l : List Char, strStarts l l = true := by
  intro l
  induction l with
  | nil => rfl
  | cons c cs ih => simp [strStarts, ih]

lemma hasSubstr_self (m : List Char) : hasSubstr m m = true := by
  cases m with
  | nil => rfl
  | cons c t => rw [hasSubstr, strStarts_self, Bool.true_or]

lemma hasSubstr_append (p m : List Char) : hasSubstr (p ++ m) m = true := by
  induction p with
  | nil => rw [List.nil_append, hasSubstr_self]
  | cons c p ih => rw [List.cons_append, hasSubstr, ih, Bool.or_true]

lemma strContainsStr_append (p m : String) :
    strContainsStr (p ++ m) m = true := by
  have h : (p ++ m).toList = p.toList ++ m.toList := by
    simp [String.toList]
  rw [strContainsStr, h, hasSubstr_append]

lemma verify_identity_sdk_error (env : Env) (sdk : SdkBehavior)
    (c : TetherClientCfg) (m : String) (h : getClient env = .ok c)
    (hv : sdk.verify c = .error m) :
    verify_identity env sdk =
      { content := ["Verification failed: " ++ m], isError := true } := by
  simp [verify_identity, h, hv]

lemma verify_identity_sdk_ok (env : Env) (sdk : SdkBehavior)
    (c : TetherClientCfg) (t : String) (h : getClient env = .ok c)
    (hv : sdk.verify c = .ok t) :
    verify_identity env sdk = { content := [t], isError := false } := by
  simp [verify_identity, h, hv]

lemma request_challenge_sdk_error (env : Env) (sdk : SdkBehavior)
    (c : TetherClientCfg) (m : String) (h : getClient env = .ok c)
    (hv : sdk.requestChallenge c = .error m) :
    request_challenge env sdk =
      { content := ["Failed to request challenge: " ++ m],
        isError := true } := by
  simp [request_challenge, h, hv]

lemma request_challenge_sdk_ok (env : Env) (sdk : SdkBehavior)
    (c : TetherClientCfg) (t : String) (h : getClient env = .ok c)
    (hv : sdk.requestChallenge c = .ok t) :
    request_challenge env sdk =
      { content := [jsonStringify2 [("challenge", JVal.jstr t)]],
        isError := false } := by
  simp [request_challenge, h, hv]

lemma sign_challenge_sdk_error (env : Env) (sdk : SdkBehavior)
    (c : TetherClientCfg) (ch m : String) (h : getClient env = .ok c)
    (hv : sdk.sign c ch = .error m) :
    sign_challenge env sdk ch =
      { content := ["Failed to sign challenge: " ++ m], isError := true } := by
  simp [sign_challenge, h, hv]

lemma sign_challenge_sdk_ok (env : Env) (sdk : SdkBehavior)
    (c : TetherClientCfg) (ch t : String) (h : getClient env = .ok c)
    (hv : sdk.sign c ch = .ok t) :
    sign_challenge env sdk ch =
      { content := [jsonStringify2 [("proof", JVal.jstr t)]],
        isError := false } := by
  simp [sign_challenge, h, hv]

lemma submit_proof_sdk_error (env : Env) (sdk : SdkBehavior)
    (c : TetherClientCfg) (ch pf m : String) (h : getClient env = .ok c)
    (hv : sdk.submitProof c ch pf = .error m) :
    submit_proof env sdk ch pf =
      { content := ["Failed to submit proof: " ++ m], isError := true } := by
  simp [submit_proof, h, hv]

lemma submit_proof_sdk_ok (env : Env) (sdk : SdkBehavior)
    (c : TetherClientCfg) (ch pf t : String) (h : getClient env = .ok c)
    (hv : sdk.submitProof c ch pf = .ok t) :
    submit_proof env sdk ch pf = { content := [t], isError := false } := by
  simp [submit_proof, h, hv]

lemma verify_identity_content_length (env : Env) (sdk : SdkBehavior) :
    (verify_identity env sdk).content.length = 1 := by
  unfold verify_identity
  rcases hg : getClient env with m | c
  · rfl
  · rcases hv : sdk.verify c with t | m <;> simp [hv]

lemma request_challenge_content_length (env : Env) (sdk : SdkBehavior) :
    (request_challenge env sdk).content.length = 1 := by
  unfold request_challenge
  rcases hg : getClient env with m | c
  · rfl
  · rcases hv : sdk.requestChallenge c with t | m <;> simp [hv]

lemma sign_challenge_content_length (env : Env) (sdk : SdkBehavior)
    (ch : String) : (sign_challenge env sdk ch).content.length = 1 := by
  unfold sign_challenge
  rcases hg : getClient env with m | c
  · rfl
  · rcases hv : sdk.sign c ch with t | m <;> simp [hv]

lemma submit_proof_content_length (env : Env) (sdk : SdkBehavior)
    (ch pf : String) : (submit_proof env sdk ch pf).content.length = 1 := by
  unfold submit_proof
  rcases hg : getClient env with m | c
  · rfl
  · rcases hv : sdk.submitProof c ch pf with t | m <;> simp [hv]

/-- Sanity check of the spec-modelled Signer: the salted PSS encoding
genuinely depends on the salt, so fixing the PKCS#1 v1.5 scheme is what
makes signing deterministic. -/
lemma emsaPss_salt_dependent :
    emsaPss id [1, 2] [3] 16 ≠ emsaPss id [1, 2] [4] 16 := by
  decide

/-- C2: the claim states that with no configuration
`get_credential_info` succeeds with the exact body
`credentialId: "(not set)", privateKeyPath: "(not set)",
baseUrl: "https://api.tether.name", configured: false`.  The handler in
fact succeeds with a body holding only `credentialId`, `privateKeyPath`
and `configured` - it serializes no `baseUrl` field at all (and
`TETHER_BASE_URL` is read nowhere in `src/index.ts`), although the
repository's own tests (`test/server.test.ts`) and README require the
`baseUrl` field.  This theorem evaluates the handler at the claim's
input and records the absence of `baseUrl` and of the default URL. -/
theorem get_credential_info_unconfigured_no_baseUrl :
    get_credential_info ⟨none, none, none⟩ =
      { content := ["\x7b\n  \"credentialId\": \"(not set)\",\n  \"privateKeyPath\": \"(not set)\",\n  \"configured\": false\n\x7d"],
        isError := false } ∧
    strContainsStr (respText (get_credential_info ⟨none, none, none⟩))
      "baseUrl" = false ∧
    strContainsStr (respText (get_credential_info ⟨none, none, none⟩))
      "https://api.tether.name" = false := by
  refine ⟨rfl, ?_, ?_⟩ <;> decide

/-- C3: the claim states that with `credentialId="my-cred-id"`,
`privateKeyPath="/path/to/key.der"` and
`baseUrl="https://custom.api.tether.name"` configured,
`get_credential_info` returns those three values and
`configured: true`.  The handler returns the credential ID, key path
and `configured: true`, but no `baseUrl` field: the configured
`TETHER_BASE_URL` value appears nowhere in the response, although the
repository's own tests (`test/server.test.ts`) and README require it. -/
theorem get_credential_info_configured_no_baseUrl :
    get_credential_info ⟨some "my-cred-id", some "/path/to/key.der",
        some "https://custom.api.tether.name"⟩ =
      { content := ["\x7b\n  \"credentialId\": \"my-cred-id\",\n  \"privateKeyPath\": \"/path/to/key.der\",\n  \"configured\": true\n\x7d"],
        isError := false } ∧
    strContainsStr (respText (get_credential_info ⟨some "my-cred-id",
        some "/path/to/key.der", some "https://custom.api.tether.name"⟩))
      "baseUrl" = false ∧
    strContainsStr (respText (get_credential_info ⟨some "my-cred-id",
        some "/path/to/key.der", some "https://custom.api.tether.name"⟩))
      "custom.api.tether.name" = false := by
  refine ⟨rfl, ?_, ?_⟩ <;> decide

/-- C5: listing the available operations always yields exactly the five
tools `verify_identity`, `request_challenge`, `sign_challenge`,
`submit_proof`, `get_credential_info`, each with a non-empty
description; `sign_challenge` declares `challenge` as its required
input field and `submit_proof` declares `challenge` and `proof`. -/
theorem tool_listing_exact :
    registeredTools.map ToolDecl.name =
      ["verify_identity", "request_challenge", "sign_challenge",
       "submit_proof", "get_credential_info"] ∧
    (registeredTools.all fun t => !(t.description == "")) = true ∧
    (registeredTools.filter fun t => t.name == "sign_challenge").map
        ToolDecl.requiredInputs = [["challenge"]] ∧
    (registeredTools.filter fun t => t.name == "submit_proof").map
        ToolDecl.requiredInputs = [["challenge", "proof"]] := by
  refine ⟨rfl, ?_, ?_, ?_⟩ <;> decide

/-- C6 counterexample: the claim states that `sign_challenge` with the
empty challenge and valid configuration fails with a validation error
and is never silently signed.  With valid configuration and an SDK
whose `sign` accepts the empty string, the handler returns a success
envelope containing the signature over the empty input: no validation
happens in this repository. -/
theorem sign_challenge_empty_signed_counterexample :
    sign_challenge ⟨some "my-cred-id", some "/path/to/key.der", none⟩
        okSignSdk "" =
      { content := ["\x7b\n  \"proof\": \"sig-of:\"\n\x7d"],
        isError := false } := by
  rfl

/-- C6 amended: `sign_challenge` performs no validation of the
challenge; with valid configuration the empty string is passed
unchanged to the SDK's `sign`, so the call succeeds with the signature
whenever `sign` succeeds and fails only when `sign` itself throws. -/
theorem sign_challenge_empty_delegates_to_sdk (env : Env)
    (sdk : SdkBehavior) (c : TetherClientCfg)
    (h : getClient env = .ok c) :
    (∀ p, sdk.sign c "" = .ok p →
      sign_challenge env sdk "" =
        { content := [jsonStringify2 [("proof", JVal.jstr p)]],
          isError := false }) ∧
    (∀ m, sdk.sign c "" = .error m →
      sign_challenge env sdk "" =
        { content := ["Failed to sign challenge: " ++ m],
          isError := true }) := by
  constructor
  · intro p hp
    exact sign_challenge_sdk_ok env sdk c "" p h hp
  · intro m hm
    exact sign_challenge_sdk_error env sdk c "" m h hm

/-- Witness for C6 amended: at a concrete configured environment, with
an SDK that accepts the empty challenge, the empty input is signed. -/
theorem sign_challenge_empty_delegates_to_sdk_witness :
    sign_challenge ⟨some "id", some "/k", none⟩ okSignSdk "" =
      { content := [jsonStringify2 [("proof", JVal.jstr "sig-of:")]],
        isError := false } :=
  (sign_challenge_empty_delegates_to_sdk ⟨some "id", some "/k", none⟩
    okSignSdk ⟨"id", "/k"⟩ rfl).1 "sig-of:" rfl

/-- C8: for every key and challenge, two invocations of the signing
path with the same key and challenge string produce identical output,
whatever ambient randomness (salt) the process supplies at each
invocation: the configured scheme is PKCS#1 v1.5, which consumes no
randomness.  Stated both for the spec-modelled Signer and for the
`sign_challenge` handler backed by it. -/
theorem sign_deterministic_for_fixed_scheme (env : Env)
    (hash : List Nat → List Nat) (key : RsaPrivateKey) (emLen : Nat)
    (challenge : String) (salt1 salt2 : List Nat) :
    rsaSign signerScheme hash key emLen challenge salt1 =
      rsaSign signerScheme hash key emLen challenge salt2 ∧
    sign_challenge env (sdkSigning hash key emLen salt1) challenge =
      sign_challenge env (sdkSigning hash key emLen salt2) challenge :=
  ⟨rfl, rfl⟩

/-- C1 counterexample: when both variables are unset,
`TETHER_PRIVATE_KEY_PATH` is unset, yet the error text of the
delegating operations names only the credential variable, so it does
not contain `PRIVATE_KEY_PATH` - refuting the claim as universally
stated over environment states. -/
theorem verify_identity_both_unset_omits_key_path_name :
    (⟨none, none, none⟩ : Env).tetherPrivateKeyPath = none ∧
    (verify_identity ⟨none, none, none⟩ dummySdk).isError = true ∧
    strContainsStr (respText (verify_identity ⟨none, none, none⟩ dummySdk))
      "PRIVATE_KEY_PATH" = false := by
  refine ⟨rfl, rfl, ?_⟩
  decide

/-- C1 amended: when `TETHER_CREDENTIAL_ID` is unset, each of the four
delegating operations returns an error envelope whose text contains
`CREDENTIAL_ID`; when `TETHER_PRIVATE_KEY_PATH` is unset and the
credential ID is set (to a truthy value), each returns an error
envelope whose text contains `PRIVATE_KEY_PATH`; `get_credential_info`
never returns an error. -/
theorem missing_env_var_error_envelopes (env : Env) (sdk : SdkBehavior)
    (ch pf : String) :
    (env.tetherCredentialId = none →
      ((verify_identity env sdk).isError = true ∧
        strContainsStr (respText (verify_identity env sdk))
          "CREDENTIAL_ID" = true) ∧
      ((request_challenge env sdk).isError = true ∧
        strContainsStr (respText (request_challenge env sdk))
          "CREDENTIAL_ID" = true) ∧
      ((sign_challenge env sdk ch).isError = true ∧
        strContainsStr (respText (sign_challenge env sdk ch))
          "CREDENTIAL_ID" = true) ∧
      ((submit_proof env sdk ch pf).isError = true ∧
        strContainsStr (respText (submit_proof env sdk ch pf))
          "CREDENTIAL_ID" = true)) ∧
    (env.tetherPrivateKeyPath = none →
      envTruthy env.tetherCredentialId = true →
      ((verify_identity env sdk).isError = true ∧
        strContainsStr (respText (verify_identity env sdk))
          "PRIVATE_KEY_PATH" = true) ∧
      ((request_challenge env sdk).isError = true ∧
        strContainsStr (respText (request_challenge env sdk))
          "PRIVATE_KEY_PATH" = true) ∧
      ((sign_challenge env sdk ch).isError = true ∧
        strContainsStr (respText (sign_challenge env sdk ch))
          "PRIVATE_KEY_PATH" = true) ∧
      ((submit_proof env sdk ch pf).isError = true ∧
        strContainsStr (respText (submit_proof env sdk ch pf))
          "PRIVATE_KEY_PATH" = true)) ∧
    (get_credential_info env).isError = false := by
  refine ⟨fun h => ?_, fun hk hc => ?_, rfl⟩
  · have hg := getClient_cred_falsy env (by simp [h, envTruthy])
    rw [verify_identity_of_error env sdk _ hg,
        request_challenge_of_error env sdk _ hg,
        sign_challenge_of_error env sdk ch _ hg,
        submit_proof_of_error env sdk ch pf _ hg]
    exact ⟨⟨rfl, by decide⟩, ⟨rfl, by decide⟩, ⟨rfl, by decide⟩,
           ⟨rfl, by decide⟩⟩
  · have hg := getClient_key_falsy env hc (by simp [hk, envTruthy])
    rw [verify_identity_of_error env sdk _ hg,
        request_challenge_of_error env sdk _ hg,
        sign_challenge_of_error env sdk ch _ hg,
        submit_proof_of_error env sdk ch pf _ hg]
    exact ⟨⟨rfl, by decide⟩, ⟨rfl, by decide⟩, ⟨rfl, by decide⟩,
           ⟨rfl, by decide⟩⟩

/-- Witness for C1 amended: concrete instances of both hypotheses -
credential unset with key path set, and key path unset with credential
set. -/
theorem missing_env_var_error_envelopes_witness :
    ((verify_identity ⟨none, some "/k", none⟩ dummySdk).isError = true ∧
      strContainsStr (respText (verify_identity ⟨none, some "/k", none⟩
        dummySdk)) "CREDENTIAL_ID" = true) ∧
    ((sign_challenge ⟨some "id", none, none⟩ dummySdk "c").isError = true ∧
      strContainsStr (respText (sign_challenge ⟨some "id", none, none⟩
        dummySdk "c")) "PRIVATE_KEY_PATH" = true) :=
  ⟨((missing_env_var_error_envelopes ⟨none, some "/k", none⟩ dummySdk
      "c" "p").1 rfl).1,
   ((missing_env_var_error_envelopes ⟨some "id", none, none⟩ dummySdk
      "c" "p").2.1 rfl rfl).2.2.1⟩

/-- C4: every operation, on every input, environment state and SDK
outcome, returns a well-formed envelope with exactly one text content
item; any failure (configuration failure from `getClient`, or a
key/signing/network failure thrown by the SDK) is converted into an
envelope with `isError = true` whose text contains the failure message,
and a successful delegation yields `isError = false`;
`get_credential_info` never errors. -/
theorem handlers_always_return_envelopes (env : Env) (sdk : SdkBehavior)
    (ch pf : String) :
    ((verify_identity env sdk).content.length = 1 ∧
      (request_challenge env sdk).content.length = 1 ∧
      (sign_challenge env sdk ch).content.length = 1 ∧
      (submit_proof env sdk ch pf).content.length = 1 ∧
      (get_credential_info env).content.length = 1) ∧
    (∀ m, getClient env = .error m →
      ((verify_identity env sdk).isError = true ∧
        strContainsStr (respText (verify_identity env sdk)) m = true) ∧
      ((request_challenge env sdk).isError = true ∧
        strContainsStr (respText (request_challenge env sdk)) m = true) ∧
      ((sign_challenge env sdk ch).isError = true ∧
        strContainsStr (respText (sign_challenge env sdk ch)) m = true) ∧
      ((submit_proof env sdk ch pf).isError = true ∧
        strContainsStr (respText (submit_proof env sdk ch pf)) m = true)) ∧
    (∀ c, getClient env = .ok c →
      (∀ m, sdk.verify c = .error m →
        (verify_identity env sdk).isError = true ∧
        strContainsStr (respText (verify_identity env sdk)) m = true) ∧
      (∀ t, sdk.verify c = .ok t →
        (verify_identity env sdk).isError = false) ∧
      (∀ m, sdk.requestChallenge c = .error m →
        (request_challenge env sdk).isError = true ∧
        strContainsStr (respText (request_challenge env sdk)) m = true) ∧
      (∀ t, sdk.requestChallenge c = .ok t →
        (request_challenge env sdk).isError = false) ∧
      (∀ m, sdk.sign c ch = .error m →
        (sign_challenge env sdk ch).isError = true ∧
        strContainsStr (respText (sign_challenge env sdk ch)) m = true) ∧
      (∀ t, sdk.sign c ch = .ok t →
        (sign_challenge env sdk ch).isError = false) ∧
      (∀ m, sdk.submitProof c ch pf = .error m →
        (submit_proof env sdk ch pf).isError = true ∧
        strContainsStr (respText (submit_proof env sdk ch pf)) m = true) ∧
      (∀ t, sdk.submitProof c ch pf = .ok t →
        (submit_proof env sdk ch pf).isError = false)) ∧
    (get_credential_info env).isError = false := by
  refine ⟨⟨verify_identity_content_length env sdk,
           request_challenge_content_length env sdk,
           sign_challenge_content_length env sdk ch,
           submit_proof_content_length env sdk ch pf, rfl⟩,
          fun m hg => ?_, fun c hg => ?_, rfl⟩
  · rw [verify_identity_of_error env sdk m hg,
        request_challenge_of_error env sdk m hg,
        sign_challenge_of_error env sdk ch m hg,
        submit_proof_of_error env sdk ch pf m hg]
    exact ⟨⟨rfl, strContainsStr_append _ m⟩,
           ⟨rfl, strContainsStr_append _ m⟩,
           ⟨rfl, strContainsStr_append _ m⟩,
           ⟨rfl, strContainsStr_append _ m⟩⟩
  · refine ⟨fun m hv => ?_, fun t hv => ?_, fun m hv => ?_, fun t hv => ?_,
            fun m hv => ?_, fun t hv => ?_, fun m hv => ?_, fun t hv => ?_⟩
    · rw [verify_identity_sdk_error env sdk c m hg hv]
      exact ⟨rfl, strContainsStr_append _ m⟩
    · rw [verify_identity_sdk_ok env sdk c t hg hv]
    · rw [request_challenge_sdk_error env sdk c m hg hv]
      exact ⟨rfl, strContainsStr_append _ m⟩
    · rw [request_challenge_sdk_ok env sdk c t hg hv]
    · rw [sign_challenge_sdk_error env sdk c ch m hg hv]
      exact ⟨rfl, strContainsStr_append _ m⟩
    · rw [sign_challenge_sdk_ok env sdk c ch t hg hv]
    · rw [submit_proof_sdk_error env sdk c ch pf m hg hv]
      exact ⟨rfl, strContainsStr_append _ m⟩
    · rw [submit_proof_sdk_ok env sdk c ch pf t hg hv]

/-- Witness for C4: concrete instance - with everything unset, the
configuration failure is converted into an error envelope carrying the
thrown message. -/
theorem handlers_always_return_envelopes_witness :
    (verify_identity ⟨none, none, none⟩ dummySdk).isError = true ∧
    strContainsStr (respText (verify_identity ⟨none, none, none⟩ dummySdk))
      "TETHER_CREDENTIAL_ID environment variable is required" = true :=
  ((handlers_always_return_envelopes ⟨none, none, none⟩ dummySdk
      "c" "p").2.1 "TETHER_CREDENTIAL_ID environment variable is required"
      rfl).1

/-- C7: with the spec-modelled orchestration (request, sign, submit)
behind `verify`, when the challenge-request step fails,
`verify_identity` returns exactly that failure as its error envelope,
the orchestrator result is that failure unchanged, and the result does
not depend on the sign and submit steps at all - they are never
attempted, so no partial effects can occur.  Failures of the sign and
submit sub-steps likewise propagate unchanged: the orchestration adds
no new error kinds. -/
theorem verify_orchestration_failure_propagation (env : Env)
    (c : TetherClientCfg) (hc : getClient env = .ok c)
    (req : TetherClientCfg → Except String String)
    (sgn sgn2 : TetherClientCfg → String → Except String String)
    (sub sub2 : TetherClientCfg → String → String → Except String String) :
    (∀ e, req c = .error e →
      verify_identity env (sdkOrch req sgn sub) =
        { content := ["Verification failed: " ++ e], isError := true } ∧
      verifyOrchestrated (req c) (sgn c) (sub c) = .error e ∧
      verifyOrchestrated (req c) (sgn c) (sub c) =
        verifyOrchestrated (req c) (sgn2 c) (sub2 c)) ∧
    (∀ ch e, req c = .ok ch → sgn c ch = .error e →
      verify_identity env (sdkOrch req sgn sub) =
        { content := ["Verification failed: " ++ e], isError := true } ∧
      verifyOrchestrated (req c) (sgn c) (sub c) = .error e ∧
      verifyOrchestrated (req c) (sgn c) (sub c) =
        verifyOrchestrated (req c) (sgn c) (sub2 c)) ∧
    (∀ ch pf e, req c = .ok ch → sgn c ch = .ok pf →
      sub c ch pf = .error e →
      verify_identity env (sdkOrch req sgn sub) =
        { content := ["Verification failed: " ++ e], isError := true } ∧
      verifyOrchestrated (req c) (sgn c) (sub c) = .error e) := by
  refine ⟨fun e he => ?_, fun ch e hr hs => ?_, fun ch pf e hr hs hb => ?_⟩
  · have hv : (sdkOrch req sgn sub).verify c = .error e := by
      simp [sdkOrch, verifyOrchestrated, he]
    exact ⟨verify_identity_sdk_error env (sdkOrch req sgn sub) c e hc hv,
           by simp [verifyOrchestrated, he], by simp [verifyOrchestrated, he]⟩
  · have hv : (sdkOrch req sgn sub).verify c = .error e := by
      simp [sdkOrch, verifyOrchestrated, hr, hs]
    exact ⟨verify_identity_sdk_error env (sdkOrch req sgn sub) c e hc hv,
           by simp [verifyOrchestrated, hr, hs],
           by simp [verifyOrchestrated, hr, hs]⟩
  · have hv : (sdkOrch req sgn sub).verify c = .error e := by
      simp [sdkOrch, verifyOrchestrated, hr, hs, hb]
    exact ⟨verify_identity_sdk_error env (sdkOrch req sgn sub) c e hc hv,
           by simp [verifyOrchestrated, hr, hs, hb]⟩

/-- Witness for C7: at a configured environment with a failing request
step, `verify_identity` surfaces exactly that failure. -/
theorem verify_orchestration_failure_propagation_witness :
    verify_identity ⟨some "id", some "/k", none⟩
        (sdkOrch (fun _ => .error "boom") (fun _ _ => .error "s1")
          (fun _ _ _ => .error "t1")) =
      { content := ["Verification failed: boom"], isError := true } :=
  ((verify_orchestration_failure_propagation ⟨some "id", some "/k", none⟩
      ⟨"id", "/k"⟩ rfl (fun _ => .error "boom") (fun _ _ => .error "s1")
      (fun _ _ => .ok "s2") (fun _ _ _ => .error "t1")
      (fun _ _ _ => .ok "t2")).1 "boom" rfl).1

/-- C9: a variable set to the empty string behaves exactly like an
unset variable: every operation returns the same response on
`some ""` as on `none` for either credential variable; with an empty
credential ID the delegating operations return the
`TETHER_CREDENTIAL_ID` error envelope, with an empty key path (and a
truthy credential ID) the `TETHER_PRIVATE_KEY_PATH` one; and
`get_credential_info` reports `"(not set)"` and `configured: false`
for empty values. -/
theorem empty_string_env_treated_as_unset (c k b : Option String)
    (sdk : SdkBehavior) (ch pf : String) :
    (verify_identity ⟨some "", k, b⟩ sdk =
        verify_identity ⟨none, k, b⟩ sdk ∧
      request_challenge ⟨some "", k, b⟩ sdk =
        request_challenge ⟨none, k, b⟩ sdk ∧
      sign_challenge ⟨some "", k, b⟩ sdk ch =
        sign_challenge ⟨none, k, b⟩ sdk ch ∧
      submit_proof ⟨some "", k, b⟩ sdk ch pf =
        submit_proof ⟨none, k, b⟩ sdk ch pf ∧
      get_credential_info ⟨some "", k, b⟩ =
        get_credential_info ⟨none, k, b⟩) ∧
    (verify_identity ⟨c, some "", b⟩ sdk =
        verify_identity ⟨c, none, b⟩ sdk ∧
      request_challenge ⟨c, some "", b⟩ sdk =
        request_challenge ⟨c, none, b⟩ sdk ∧
      sign_challenge ⟨c, some "", b⟩ sdk ch =
        sign_challenge ⟨c, none, b⟩ sdk ch ∧
      submit_proof ⟨c, some "", b⟩ sdk ch pf =
        submit_proof ⟨c, none, b⟩ sdk ch pf ∧
      get_credential_info ⟨c, some "", b⟩ =
        get_credential_info ⟨c, none, b⟩) ∧
    ((verify_identity ⟨some "", k, b⟩ sdk).isError = true ∧
      strContainsStr (respText (verify_identity ⟨some "", k, b⟩ sdk))
        "TETHER_CREDENTIAL_ID" = true) ∧
    (envTruthy c = true →
      (sign_challenge ⟨c, some "", b⟩ sdk ch).isError = true ∧
      strContainsStr (respText (sign_challenge ⟨c, some "", b⟩ sdk ch))
        "TETHER_PRIVATE_KEY_PATH" = true) ∧
    get_credential_info ⟨some "", some "", b⟩ =
      { content := ["\x7b\n  \"credentialId\": \"(not set)\",\n  \"privateKeyPath\": \"(not set)\",\n  \"configured\": false\n\x7d"],
        isError := false } := by
  refine ⟨⟨rfl, rfl, rfl, rfl, rfl⟩, ⟨rfl, rfl, rfl, rfl, rfl⟩,
          ⟨rfl, rfl⟩, fun hc => ?_, rfl⟩
  have hg := getClient_key_falsy ⟨c, some "", b⟩ hc rfl
  rw [sign_challenge_of_error ⟨c, some "", b⟩ sdk ch _ hg]
  exact ⟨rfl, by decide⟩

/-- Witness for C9: with an empty key path and a set credential ID,
`sign_challenge` returns the `TETHER_PRIVATE_KEY_PATH` error
envelope. -/
theorem empty_string_env_treated_as_unset_witness :
    (sign_challenge ⟨some "id", some "", none⟩ dummySdk "c").isError =
        true ∧
    strContainsStr (respText (sign_challenge ⟨some "id", some "", none⟩
      dummySdk "c")) "TETHER_PRIVATE_KEY_PATH" = true :=
  (empty_string_env_treated_as_unset (some "id") none none dummySdk
    "c" "p").2.2.2.1 rfl

/-- C10: when both required variables are unset, the delegating
operations report only `TETHER_CREDENTIAL_ID`: the credential-ID check
in `getClient` runs first and short-circuits the key-path check, so the
error text does not contain `TETHER_PRIVATE_KEY_PATH`. -/
theorem both_unset_reports_credential_id_first (env : Env)
    (sdk : SdkBehavior) (ch pf : String)
    (hc : env.tetherCredentialId = none)
    (_hk : env.tetherPrivateKeyPath = none) :
    (strContainsStr (respText (verify_identity env sdk))
        "TETHER_CREDENTIAL_ID" = true ∧
      strContainsStr (respText (verify_identity env sdk))
        "TETHER_PRIVATE_KEY_PATH" = false) ∧
    (strContainsStr (respText (request_challenge env sdk))
        "TETHER_CREDENTIAL_ID" = true ∧
      strContainsStr (respText (request_challenge env sdk))
        "TETHER_PRIVATE_KEY_PATH" = false) ∧
    (strContainsStr (respText (sign_challenge env sdk ch))
        "TETHER_CREDENTIAL_ID" = true ∧
      strContainsStr (respText (sign_challenge env sdk ch))
        "TETHER_PRIVATE_KEY_PATH" = false) ∧
    (strContainsStr (respText (submit_proof env sdk ch pf))
        "TETHER_CREDENTIAL_ID" = true ∧
      strContainsStr (respText (submit_proof env sdk ch pf))
        "TETHER_PRIVATE_KEY_PATH" = false) := by
  have hg := getClient_cred_falsy env (by simp [hc, envTruthy])
  rw [verify_identity_of_error env sdk _ hg,
      request_challenge_of_error env sdk _ hg,
      sign_challenge_of_error env sdk ch _ hg,
      submit_proof_of_error env sdk ch pf _ hg]
  exact ⟨⟨by decide, by decide⟩, ⟨by decide, by decide⟩,
         ⟨by decide, by decide⟩, ⟨by decide, by decide⟩⟩

/-- Witness for C10: the concrete fully-unset environment. -/
theorem both_unset_reports_credential_id_first_witness :
    strContainsStr (respText (verify_identity ⟨none, none, none⟩ dummySdk))
        "TETHER_CREDENTIAL_ID" = true ∧
    strContainsStr (respText (verify_identity ⟨none, none, none⟩ dummySdk))
        "TETHER_PRIVATE_KEY_PATH" = false :=
  (both_unset_reports_credential_id_first ⟨none, none, none⟩ dummySdk
    "c" "p" rfl rfl).1

end TetherMcp
